import Mathlib

/-!
Shallow embedding of the boardgame-crud frontend logic (src/frontend/main.js,
second revision, the one the current app ships) together with a spec-modelled
backend query validator.  JavaScript strings are modelled as Lean `String` /
`List Char`; JS numbers appearing in game records are modelled as `Int`
(the app only ever stores integral player counts and durations); absent or
`null` values are modelled as `Option`.  `String.prototype.trim`,
`toLowerCase`, the two literal regexes of `analyzeQuery` and
`encodeURIComponent` are embedded as executable character-list functions.
-/

/-- Character class trimmed by the JS `trim` used throughout `main.js`
(space, tab, LF, CR, vertical tab, form feed, NBSP). -/
def isJsSpace (c : Char) : Bool :=
  c = ' ' || c = '\t' || c = '\n' || c = '\r' ||
  c = Char.ofNat 11 || c = Char.ofNat 12 || c = Char.ofNat 160

/-- Drop trailing characters satisfying `p` (helper for the trim embedding). -/
def rstrip (p : Char → Bool) (l : List Char) : List Char :=
  (l.reverse.dropWhile p).reverse

/-- Embedding of JS `String.prototype.trim` on character lists. -/
def jsTrimL (l : List Char) : List Char :=
  rstrip isJsSpace (l.dropWhile isJsSpace)

/-- Embedding of JS `String.prototype.trim` on strings. -/
def jsTrim (s : String) : String :=
  String.mk (jsTrimL s.toList)

/-- ASCII lower-casing, the fragment of JS `toLowerCase` exercised by the app
(all query keywords compared by `analyzeQuery` are ASCII or already
lower-case). -/
def toLowerL (l : List Char) : List Char :=
  l.map Char.toLower

/-- Splitting on commas, mirroring JS `split(',')` (no empty-group collapsing). -/
def splitComma : List Char → List (List Char)
  | [] => [[]]
  | c :: rest =>
    if c = ',' then [] :: splitComma rest
    else
      match splitComma rest with
      | [] => [[c]]
      | grp :: groups => (c :: grp) :: groups

/-- Embedding of `parseTags` (main.js:1499): `null`/empty text gives no tags,
otherwise split on commas, trim each entry, drop empties.  The array input
branch of the JS function is not reachable from stored rows and is omitted. -/
def parseTags (value : Option String) : List String :=
  match value with
  | none => []
  | some s =>
    if s = "" then []
    else
      (((splitComma s.toList).map jsTrimL).filter (fun l => !l.isEmpty)).map String.mk

/-- Numeric value of a digit run. -/
def natOfDigits (l : List Char) : Nat :=
  l.foldl (fun a c => a * 10 + (c.toNat - 48)) 0

/-- Collect maximal runs of characters satisfying `p` (worker). -/
def runsByAux (p : Char → Bool) : List Char → List Char → List (List Char)
  | [], acc => if acc.isEmpty then [] else [acc.reverse]
  | c :: rest, acc =>
    if p c then runsByAux p rest (c :: acc)
    else if acc.isEmpty then runsByAux p rest []
    else acc.reverse :: runsByAux p rest []

/-- Collect maximal runs of characters satisfying `p`, left to right. -/
def runsBy (p : Char → Bool) (l : List Char) : List (List Char) :=
  runsByAux p l []

/-- Inclusive numeric range, result shape of `parseNumericRange`. -/
structure NumRange where
  min : Int
  max : Int
deriving DecidableEq, Repr

/-- Embedding of `parseNumericRange` (main.js:1520): extract all digit runs
(the `/\d+/g` regex) from a free-text label and return their minimum and
maximum, or `none` when the label is absent, empty or has no digits. -/
def parseNumericRange (text : Option String) : Option NumRange :=
  match text with
  | none => none
  | some s =>
    if s = "" then none
    else
      match (runsBy Char.isDigit s.toList).map natOfDigits with
      | [] => none
      | n :: ns =>
        some { min := ((ns.foldl Nat.min n : Nat) : Int),
               max := ((ns.foldl Nat.max n : Nat) : Int) }

/-- Embedding of `toOptionalNumber` (main.js:1512).  Store rows carry integral
numbers or `null` for the numeric columns, so on that domain the JS function
(`null`/`undefined`/empty give `null`, finite numbers pass through) is the
identity on `Option Int`. -/
def toOptionalNumber (value : Option Int) : Option Int :=
  value

/-- Embedding of the JS `??` null-coalescing operator on optional values. -/
def jsCoalesce {α : Type} (a b : Option α) : Option α :=
  match a with
  | some x => some x
  | none => b

/-- Raw store row as returned by the backend JSON API (`apiGame` in main.js).
Numeric columns are integral or `null`; text columns are text or `null`. -/
structure ApiGame where
  name : Option String
  min_players : Option Int
  max_players : Option Int
  min_duration_minutes : Option Int
  max_duration_minutes : Option Int
  play_time : Option String
  player_count : Option String
  game_type : Option String
  team_play : Option String
  special_support : Option String
  everyone_can_play : Option String
deriving DecidableEq, Repr

/-- Canonical frontend record shape produced by `mapApiGame` (main.js:1555). -/
structure Game where
  id : String
  nom : String
  minJoueurs : Option Int
  maxJoueurs : Option Int
  minDuree : Option Int
  maxDuree : Option Int
  playTime : Option String
  playerCount : Option String
  type : String
  complexite : String
  tags : List String
  everyone : String
  raw : ApiGame
deriving DecidableEq, Repr

/-- Embedding of `mapApiGame` (main.js:1555): maps a raw row to the canonical
record, coalescing each absent stored numeric bound with the min/max of the
digit runs of the corresponding free-text label. -/
def mapApiGame (apiGame : ApiGame) : Game :=
  let durationRange := parseNumericRange apiGame.play_time
  let playerRange := parseNumericRange apiGame.player_count
  { id := apiGame.name.getD ""
    nom := apiGame.name.getD ""
    minJoueurs := jsCoalesce (toOptionalNumber apiGame.min_players) (playerRange.map NumRange.min)
    maxJoueurs := jsCoalesce (toOptionalNumber apiGame.max_players) (playerRange.map NumRange.max)
    minDuree := jsCoalesce (toOptionalNumber apiGame.min_duration_minutes) (durationRange.map NumRange.min)
    maxDuree := jsCoalesce (toOptionalNumber apiGame.max_duration_minutes) (durationRange.map NumRange.max)
    playTime := apiGame.play_time
    playerCount := apiGame.player_count
    type := apiGame.game_type.getD ""
    complexite := apiGame.team_play.getD ""
    tags := parseTags apiGame.special_support
    everyone := apiGame.everyone_can_play.getD ""
    raw := apiGame }

/-- Test whether `needle` is a leading segment of `hay`. -/
def startsWithL : List Char → List Char → Bool
  | [], _ => true
  | _ :: _, [] => false
  | a :: as, b :: bs => a == b && startsWithL as bs

/-- Substring test, embedding JS `String.prototype.includes`. -/
def hasSubstr (needle : List Char) : List Char → Bool
  | [] => needle.isEmpty
  | c :: rest => startsWithL needle (c :: rest) || hasSubstr needle rest

/-- Try to match digits, optional whitespace, then the literal `lit` at the
head of `l`; on success return the numeric value of the digit run.  This is
one anchor position of the JS regexes `/(\d+)\s*(min|minutes)/` and
`/(\d+)\s*jou/` (backtracking inside the digit run can never help, because
the literals start with a non-digit non-space character). -/
def tryNumLitAt (lit : List Char) (l : List Char) : Option Nat :=
  let ds := l.takeWhile Char.isDigit
  let rest := l.dropWhile Char.isDigit
  if ds.isEmpty then none
  else if startsWithL lit (rest.dropWhile isJsSpace) then some (natOfDigits ds)
  else none

/-- Leftmost match of digits, optional whitespace, then `lit`; embedding of
the two numeric regexes used by `analyzeQuery`. -/
def matchNumLit (lit : List Char) : List Char → Option Nat
  | [] => none
  | c :: rest =>
    match tryNumLitAt lit (c :: rest) with
    | some n => some n
    | none => matchNumLit lit rest

/-- Result shape of `analyzeQuery`: detected filter chips plus the locally
filtered record list. -/
structure Analysis where
  extracts : List String
  filtered : List Game
deriving Repr

/-- Embedding of the `pushExtract` closure inside `analyzeQuery`: append a
non-empty value unless already present. -/
def pushExtract (extracts : List String) (value : String) : List String :=
  if value = "" then extracts
  else if extracts.contains value then extracts
  else extracts ++ [value]

/-- Competitive-type filter of `analyzeQuery` (type contains "comp"). -/
def typeCompFilter (g : Game) : Bool :=
  hasSubstr ("comp".toList) (toLowerL g.type.toList)

/-- Cooperative-type filter of `analyzeQuery` (type contains "coop"). -/
def typeCoopFilter (g : Game) : Bool :=
  hasSubstr ("coop".toList) (toLowerL g.type.toList)

/-- Duration filter of `analyzeQuery`: prefer the numeric min bound (else max
bound), falling back to the digit range of the `playTime` label. -/
def durationFilter (maxTime : Nat) (g : Game) : Bool :=
  match (match g.minDuree with | some d => some d | none => g.maxDuree) with
  | some d => decide (d ≤ (maxTime : Int))
  | none =>
    match parseNumericRange g.playTime with
    | some r => decide (r.min ≤ (maxTime : Int))
    | none => false

/-- Player filter of `analyzeQuery`: the target player count must fit between
the available bounds, falling back to the digit range of the `playerCount`
label. -/
def playerFilter (targetPlayers : Nat) (g : Game) : Bool :=
  match g.minJoueurs, g.maxJoueurs with
  | some mn, some mx => decide (mn ≤ (targetPlayers : Int) ∧ (targetPlayers : Int) ≤ mx)
  | some mn, none => decide (mn ≤ (targetPlayers : Int))
  | none, some mx => decide ((targetPlayers : Int) ≤ mx)
  | none, none =>
    match parseNumericRange g.playerCount with
    | some r => decide (r.min ≤ (targetPlayers : Int) ∧ (targetPlayers : Int) ≤ r.max)
    | none => false

/-- Embedding of `analyzeQuery` (main.js:1608): normalize the sentence,
then apply in order the competitive, cooperative, duration ("moins ... min")
and player-count ("N jou...") filters, collecting one extract chip per
triggered filter. -/
def analyzeQuery (query : String) (games : List Game) : Analysis :=
  let normalized := toLowerL (jsTrimL query.toList)
  if normalized = [] then { extracts := [], filtered := games }
  else
    let a0 : Analysis := { extracts := [], filtered := games }
    let a1 :=
      if hasSubstr ("compétit".toList) normalized then
        { extracts := pushExtract a0.extracts "Compétitif",
          filtered := a0.filtered.filter typeCompFilter }
      else a0
    let a2 :=
      if hasSubstr ("coop".toList) normalized then
        { extracts := pushExtract a1.extracts "Coopératif",
          filtered := a1.filtered.filter typeCoopFilter }
      else a1
    let a3 :=
      match matchNumLit ("min".toList) normalized with
      | some maxTime =>
        if hasSubstr ("moins".toList) normalized then
          { extracts := pushExtract a2.extracts ("≤ " ++ toString maxTime ++ " min"),
            filtered := a2.filtered.filter (durationFilter maxTime) }
        else a2
      | none => a2
    match matchNumLit ("jou".toList) normalized with
    | some targetPlayers =>
      { extracts := pushExtract a3.extracts (toString targetPlayers ++ " joueurs"),
        filtered := a3.filtered.filter (playerFilter targetPlayers) }
    | none => a3

/-- Uppercase hexadecimal digit. -/
def hexDigit (n : Nat) : Char :=
  if n < 10 then Char.ofNat (48 + n) else Char.ofNat (55 + n)

/-- UTF-8 byte sequence of a code point (for percent-encoding). -/
def utf8Bytes (n : Nat) : List Nat :=
  if n < 128 then [n]
  else if n < 2048 then [192 + n / 64, 128 + n % 64]
  else if n < 65536 then [224 + n / 4096, 128 + (n / 64) % 64, 128 + n % 64]
  else [240 + n / 262144, 128 + (n / 4096) % 64, 128 + (n / 64) % 64, 128 + n % 64]

/-- Characters left untouched by JS `encodeURIComponent`. -/
def isUriUnreserved (c : Char) : Bool :=
  c.isAlphanum || c = '-' || c = '_' || c = '.' || c = '!' ||
  c = '~' || c = '*' || c = Char.ofNat 39 || c = '(' || c = ')'

/-- Percent-encode one character. -/
def encodeUriChar (c : Char) : List Char :=
  if isUriUnreserved c then [c]
  else (utf8Bytes c.toNat).foldr (fun b acc => '%' :: hexDigit (b / 16) :: hexDigit (b % 16) :: acc) []

/-- Embedding of JS `encodeURIComponent`. -/
def encodeURIComponent (s : String) : String :=
  String.mk ((s.toList.map encodeUriChar).foldr (fun a b => a ++ b) [])

/-- Error codes attached by `createApiCaller` (main.js:1854): `NETWORK_ERROR`
when the fetch itself fails, `HTTP_ERROR` (with the HTTP status) when the
server answers with a non-ok status. -/
inductive ErrCode where
  | network
  | http
deriving DecidableEq, Repr

/-- Error object thrown by `callApi`: its code and, for HTTP errors, the
response status (network errors carry no status). -/
structure ApiError where
  code : ErrCode
  status : Option Nat
deriving DecidableEq, Repr

/-- Outcome of the underlying `fetch` call: either the request never reached
the server, or a response with some HTTP status and a row payload. -/
inductive FetchOutcome where
  | networkFailure
  | response (status : Nat) (rows : List ApiGame)
deriving DecidableEq, Repr

/-- Embedding of the `callApi` closure built by `createApiCaller`
(main.js:1854): a fetch-level failure becomes a `NETWORK_ERROR`, a non-2xx
response becomes an `HTTP_ERROR` carrying the status, a 2xx response yields
the payload. -/
def callApi : FetchOutcome → Except ApiError (List ApiGame)
  | .networkFailure => .error { code := .network, status := none }
  | .response status rows =>
    if 200 ≤ status ∧ status ≤ 299 then .ok rows
    else .error { code := .http, status := some status }

/-- Feedback categories shown by the search UI (`type` values passed to
`showSearchFeedback` in main.js): `databaseError` is the store-unreachable
message, `queryError` the "Essaye une autre question" message,
`generalError` the catch-all. -/
inductive FeedbackType where
  | databaseError
  | queryError
  | generalError
deriving DecidableEq, Repr

/-- Feedback classification of a failed search, embedding the error branch of
`performNaturalSearch` (main.js:2228): a `NETWORK_ERROR` is reported as the
database-unreachable category before any other attribute is consulted;
otherwise HTTP status 400 or 502 yields the try-another-question category;
anything else is a general error. -/
def classifySearchError (e : ApiError) : FeedbackType :=
  if e.code = .network then .databaseError
  else if e.status = some 400 ∨ e.status = some 502 then .queryError
  else .generalError

/-- Last successful search memory (`state.lastSearch` in main.js:1976). -/
structure LastSearch where
  query : String
  results : List Game
deriving DecidableEq, Repr

/-- The slice of the app state touched by the search path (`state.games` and
`state.lastSearch`, main.js:1968). -/
structure AppState where
  games : List Game
  lastSearch : LastSearch
deriving DecidableEq, Repr

/-- HTTP methods used by the app. -/
inductive Method where
  | GET
  | POST
  | PUT
  | DELETE
deriving DecidableEq, Repr

/-- A request issued through `callApi`. -/
structure ApiRequest where
  method : Method
  path : String
deriving DecidableEq, Repr

/-- Observable effect of one `performNaturalSearch` call: the updated state,
the list handed to `renderResults`, the feedback shown (if any) and the API
request issued (if any). -/
structure SearchStep where
  newState : AppState
  displayed : List Game
  feedback : Option FeedbackType
  request : Option ApiRequest
deriving Repr

/-- Embedding of `performNaturalSearch` (main.js:2187).  A blank (trimmed)
query resets `lastSearch`, renders the full record set and issues no request.
Otherwise one GET request is issued; on success the mapped rows are rendered
and remembered; on failure a feedback category is shown (unless `silent`) and
the rendering falls back to the previous results when they are non-empty and
belong to this very query, else to the full record set. -/
def performNaturalSearch (st : AppState) (rawQuery : String) (silent : Bool)
    (fetch : FetchOutcome) : SearchStep :=
  let query := jsTrim rawQuery
  if query = "" then
    { newState := { st with lastSearch := { query := "", results := [] } },
      displayed := st.games,
      feedback := none,
      request := none }
  else
    let req : ApiRequest :=
      { method := .GET, path := "/games?question=" ++ encodeURIComponent query }
    match callApi fetch with
    | .ok rows =>
      let mapped := rows.map mapApiGame
      { newState := { st with lastSearch := { query := query, results := mapped } },
        displayed := mapped,
        feedback := none,
        request := some req }
    | .error e =>
      { newState := st,
        displayed :=
          if st.lastSearch.results ≠ [] ∧ st.lastSearch.query ≠ "" ∧ st.lastSearch.query = query
          then st.lastSearch.results
          else st.games,
        feedback := if silent then none else some (classifySearchError e),
        request := some req }

/-- Form contents collected by `collectFormData` (main.js:1898). -/
structure FormData where
  nom : String
  minJoueurs : Option Int
  maxJoueurs : Option Int
  dureeMin : Option Int
  dureeMax : Option Int
  type : Option String
  complexite : Option String
  tags : List String
  everyone : String
deriving DecidableEq, Repr

/-- Embedding of `formatPlayersRange` (main.js:1531). -/
def formatPlayersRange (min max : Option Int) : Option String :=
  match min, max with
  | some mn, some mx =>
    if mn = mx then some (toString mn) else some (toString mn ++ " à " ++ toString mx)
  | some mn, none => some (toString mn ++ "+")
  | none, some mx => some ("≤ " ++ toString mx)
  | none, none => none

/-- Embedding of `derivePlayTimeString` (main.js:1545). -/
def derivePlayTimeString (min max : Option Int) : Option String :=
  match min, max with
  | some mn, some mx =>
    if mn = mx then some (toString mn ++ " min") else some (toString mn ++ " - " ++ toString mx ++ " min")
  | some mn, none => some (toString mn ++ " min")
  | none, some mx => some (toString mx ++ " min")
  | none, none => none

/-- Embedding of the JS `value || null` idiom on optional strings (an empty
string collapses to `null`). -/
def jsOrNullStr (v : Option String) : Option String :=
  match v with
  | some s => if s = "" then none else some s
  | none => none

/-- Body of a create/update request, output of `buildPayloadFromForm`
(main.js:1703). -/
structure Payload where
  name : String
  min_players : Option Int
  max_players : Option Int
  min_duration_minutes : Option Int
  max_duration_minutes : Option Int
  play_time : Option String
  player_count : Option String
  game_type : Option String
  team_play : Option String
  special_support : Option String
  everyone_can_play : String
deriving DecidableEq, Repr

/-- Embedding of `buildPayloadFromForm` (main.js:1703). -/
def buildPayloadFromForm (data : FormData) : Payload :=
  { name := data.nom,
    min_players := data.minJoueurs,
    max_players := data.maxJoueurs,
    min_duration_minutes := data.dureeMin,
    max_duration_minutes := data.dureeMax,
    play_time := derivePlayTimeString data.dureeMin data.dureeMax,
    player_count := formatPlayersRange data.minJoueurs data.maxJoueurs,
    game_type := jsOrNullStr data.type,
    team_play := jsOrNullStr data.complexite,
    special_support := if data.tags = [] then none else some (String.intercalate ", " data.tags),
    everyone_can_play := if data.everyone = "" then "oui" else data.everyone }

/-- A persisted save request (method, path and JSON body). -/
structure SaveRequest where
  method : Method
  path : String
  body : Payload
deriving DecidableEq, Repr

/-- Name captured by `fillForm` when editing starts (main.js:2100):
`game.raw?.name ?? game.nom`. -/
def captureEditingName (g : Game) : String :=
  g.raw.name.getD g.nom

/-- Embedding of `handleSave` (main.js:2265): an empty name aborts with no
request; otherwise an update is addressed by the captured original name
(`PUT /games/<encoded original name>`) when one is being edited, else a
create (`POST /games`) is issued. -/
def handleSave (editingOriginalName : Option String) (data : FormData) : Option SaveRequest :=
  if data.nom = "" then none
  else
    let payload := buildPayloadFromForm data
    match editingOriginalName with
    | some orig =>
      some { method := .PUT, path := "/games/" ++ encodeURIComponent orig, body := payload }
    | none => some { method := .POST, path := "/games", body := payload }

/-- The fixed table name (`DB_TABLE_NAME`, main.js:1493). -/
def DB_TABLE_NAME : String := "jeux"

/-- Embedding of `buildSearchSql` (main.js:1826): the direction string is
normalized to `ASC`/`DESC`, the sort key selects one of five fixed templates
(unknown keys fall through to the name template). -/
def buildSearchSql (sortKey : String) (direction : String) : String :=
  let dir := if direction = "desc" then "DESC" else "ASC"
  if sortKey = "players" then
    "SELECT * FROM " ++ DB_TABLE_NAME ++ " ORDER BY " ++
      "COALESCE(joueurs_min, joueurs_max) " ++ dir ++ ", " ++
      "COALESCE(joueurs_max, joueurs_min) " ++ dir ++ ", " ++
      "nom_du_jeu COLLATE NOCASE ASC"
  else if sortKey = "duration" then
    "SELECT * FROM " ++ DB_TABLE_NAME ++ " ORDER BY " ++
      "COALESCE(duree_min_minutes, duree_max_minutes) " ++ dir ++ ", " ++
      "COALESCE(duree_max_minutes, duree_min_minutes) " ++ dir ++ ", " ++
      "nom_du_jeu COLLATE NOCASE ASC"
  else if sortKey = "type" then
    "SELECT * FROM " ++ DB_TABLE_NAME ++ " ORDER BY " ++
      "type_de_jeu COLLATE NOCASE " ++ dir ++ ", " ++
      "nom_du_jeu COLLATE NOCASE ASC"
  else if sortKey = "complexite" then
    "SELECT * FROM " ++ DB_TABLE_NAME ++ " ORDER BY " ++
      "en_equipe COLLATE NOCASE " ++ dir ++ ", " ++
      "nom_du_jeu COLLATE NOCASE ASC"
  else
    "SELECT * FROM " ++ DB_TABLE_NAME ++ " ORDER BY " ++
      "nom_du_jeu COLLATE NOCASE " ++ dir

/-- The single-quote character used as the SQL string-literal delimiter. -/
def sqlQuote : Char := Char.ofNat 39

/-- Characters that may occur inside a SQL identifier or keyword token. -/
def isSqlIdentChar (c : Char) : Bool :=
  c.isAlphanum || c = '_'

/-- Lexer worker: collect maximal identifier/keyword tokens, skipping over
single-quoted string literals (first argument: currently inside a literal). -/
def sqlTokensAux : Bool → List Char → List Char → List (List Char)
  | _, [], acc => if acc.isEmpty then [] else [acc.reverse]
  | true, c :: rest, acc =>
    if c = sqlQuote then sqlTokensAux false rest acc else sqlTokensAux true rest acc
  | false, c :: rest, acc =>
    if c = sqlQuote then
      if acc.isEmpty then sqlTokensAux true rest []
      else acc.reverse :: sqlTokensAux true rest []
    else if isSqlIdentChar c then sqlTokensAux false rest (c :: acc)
    else if acc.isEmpty then sqlTokensAux false rest []
    else acc.reverse :: sqlTokensAux false rest []

/-- Whole tokens of a candidate query, with string literals skipped. -/
def sqlTokens (l : List Char) : List (List Char) :=
  sqlTokensAux false l []

/-- Uppercase a token (case-insensitive keyword comparison). -/
def upperTok (t : List Char) : List Char :=
  t.map Char.toUpper

/-- Tolerated framing of a candidate: leading whitespace and any trailing
whitespace or statement terminators are stripped. -/
def stripCandidate (s : String) : List Char :=
  rstrip (fun c => isJsSpace c || c = ';') (s.toList.dropWhile isJsSpace)

/-- Upper-cased whole tokens of a candidate query after framing is stripped
(string-literal contents keep no tokens, so their casing is irrelevant). -/
def sqlUpperTokens (s : String) : List (List Char) :=
  (sqlTokens (stripCandidate s)).map upperTok

/-- Statement-separator scan outside string literals (first argument:
currently inside a literal). -/
def hasSemiOutside : Bool → List Char → Bool
  | _, [] => false
  | true, c :: rest =>
    if c = sqlQuote then hasSemiOutside false rest else hasSemiOutside true rest
  | false, c :: rest =>
    if c = sqlQuote then hasSemiOutside true rest
    else if c = ';' then true
    else hasSemiOutside false rest

/-- Data- and schema-modifying keywords denied by the validator, per the
spec (insert/update/delete/drop/alter/create/attach/pragma and
transaction control, compared case-insensitively as whole tokens). -/
def DISALLOWED_SQL_KEYWORDS : List (List Char) :=
  ["INSERT".toList, "UPDATE".toList, "DELETE".toList, "DROP".toList,
   "ALTER".toList, "CREATE".toList, "ATTACH".toList, "DETACH".toList,
   "PRAGMA".toList, "REPLACE".toList, "BEGIN".toList, "COMMIT".toList,
   "ROLLBACK".toList, "TRANSACTION".toList, "VACUUM".toList]

/-- Rejection reasons of the validator (spec §3, ValidationOutcome). -/
inductive RejectReason where
  | notAReadQuery
  | multipleStatements
  | disallowedKeyword
  | unknownColumn
deriving DecidableEq, Repr

/-- Outcome of validation: accepted (carrying the sanitized query) or
rejected with a reason code. -/
inductive ValidationOutcome where
  | accepted (sanitized : String)
  | rejected (reason : RejectReason)
deriving DecidableEq, Repr

/-- Modelled from the spec: the backend Query Validator (spec §4.1) is not
part of src/ (only the frontend ships there), so `validate` is built from the
spec text: strip tolerated framing, reject any whole token (case-insensitive,
string literals skipped) from the modification denylist, reject statement
separators outside literals, and require the first token to be SELECT.  The
unknown-column check of §4.1 is not needed by any claim and is not modelled. -/
def validate (candidate : String) : ValidationOutcome :=
  let body := stripCandidate candidate
  let toks := sqlUpperTokens candidate
  if toks.any (fun t => decide (t ∈ DISALLOWED_SQL_KEYWORDS)) then
    .rejected .disallowedKeyword
  else if hasSemiOutside false body then
    .rejected .multipleStatements
  else if toks.head? = some ("SELECT".toList) then
    .accepted (String.mk body)
  else
    .rejected .notAReadQuery

/-- Checker for the shape the claim calls a "single read-only selection
statement": first token SELECT, no statement separator outside literals, no
modifying keyword as a whole token. -/
def isSingleReadOnlySelect (candidate : String) : Bool :=
  decide ((sqlUpperTokens candidate).head? = some ("SELECT".toList)) &&
  !hasSemiOutside false (stripCandidate candidate) &&
  (sqlUpperTokens candidate).all (fun t => !decide (t ∈ DISALLOWED_SQL_KEYWORDS))

/-- Structural safety checker for the sort queries: the fixed single-SELECT
shape over the known table, no statement separator, no modifying keyword. -/
def sortSqlSafe (s : String) : Bool :=
  startsWithL ("SELECT * FROM jeux ORDER BY ".toList) s.toList &&
  !(s.toList.contains ';') &&
  (sqlUpperTokens s).all (fun t => !decide (t ∈ DISALLOWED_SQL_KEYWORDS))

/-- The ten concrete SQL strings column sorting can ever produce. -/
def sortSqlAllowed : List String :=
  ["SELECT * FROM jeux ORDER BY COALESCE(joueurs_min, joueurs_max) ASC, COALESCE(joueurs_max, joueurs_min) ASC, nom_du_jeu COLLATE NOCASE ASC",
   "SELECT * FROM jeux ORDER BY COALESCE(joueurs_min, joueurs_max) DESC, COALESCE(joueurs_max, joueurs_min) DESC, nom_du_jeu COLLATE NOCASE ASC",
   "SELECT * FROM jeux ORDER BY COALESCE(duree_min_minutes, duree_max_minutes) ASC, COALESCE(duree_max_minutes, duree_min_minutes) ASC, nom_du_jeu COLLATE NOCASE ASC",
   "SELECT * FROM jeux ORDER BY COALESCE(duree_min_minutes, duree_max_minutes) DESC, COALESCE(duree_max_minutes, duree_min_minutes) DESC, nom_du_jeu COLLATE NOCASE ASC",
   "SELECT * FROM jeux ORDER BY type_de_jeu COLLATE NOCASE ASC, nom_du_jeu COLLATE NOCASE ASC",
   "SELECT * FROM jeux ORDER BY type_de_jeu COLLATE NOCASE DESC, nom_du_jeu COLLATE NOCASE ASC",
   "SELECT * FROM jeux ORDER BY en_equipe COLLATE NOCASE ASC, nom_du_jeu COLLATE NOCASE ASC",
   "SELECT * FROM jeux ORDER BY en_equipe COLLATE NOCASE DESC, nom_du_jeu COLLATE NOCASE ASC",
   "SELECT * FROM jeux ORDER BY nom_du_jeu COLLATE NOCASE ASC",
   "SELECT * FROM jeux ORDER BY nom_du_jeu COLLATE NOCASE DESC"]

/-- A store row with every column absent (basis for concrete samples). -/
def emptyApiGame : ApiGame :=
  { name := none, min_players := none, max_players := none,
    min_duration_minutes := none, max_duration_minutes := none,
    play_time := none, player_count := none, game_type := none,
    team_play := none, special_support := none, everyone_can_play := none }

/-- A minimal concrete record with the given name and player bounds. -/
def mkSimpleGame (nm : String) (mn mx : Option Int) : Game :=
  { id := nm, nom := nm, minJoueurs := mn, maxJoueurs := mx,
    minDuree := none, maxDuree := none, playTime := none, playerCount := none,
    type := "", complexite := "", tags := [], everyone := "", raw := emptyApiGame }

/-- Concrete row whose numeric duration bound is present. -/
def sampleRowA : ApiGame :=
  { emptyApiGame with name := some "RowA", min_duration_minutes := some 25 }

/-- Concrete row with absent numeric bounds but free-text labels, as in the
repository test `mapApiGame normalizes values and derives ranges`. -/
def sampleRowB : ApiGame :=
  { emptyApiGame with
      name := some "Test",
      play_time := some "10 - 20 min",
      player_count := some "2 à 4",
      game_type := some "Coopératif",
      team_play := some "Oui",
      special_support := some "Cartes, Dés",
      everyone_can_play := some "oui" }

/-- Concrete state with one stored record and a non-empty remembered search
for the query "x" (used to exercise the failure fallback). -/
def cexState : AppState :=
  { games := [mkSimpleGame "Azul" none none],
    lastSearch := { query := "x", results := [mkSimpleGame "Dixit" none none] } }

/-- Concrete record a student of the edit flow starts editing (stored name
"Ancien"). -/
def editedGame : Game :=
  { mkSimpleGame "Ancien" none none with raw := { emptyApiGame with name := some "Ancien" } }

/-- Concrete form contents in which the user renamed the game to "Nouveau". -/
def renamedForm : FormData :=
  { nom := "Nouveau", minJoueurs := none, maxJoueurs := none, dureeMin := none,
    dureeMax := none, type := none, complexite := none, tags := [], everyone := "oui" }

/-- Dropping a satisfied run twice is the same as dropping it once. -/
theorem dropWhile_self (p : Char → Bool) (l : List Char) :
    (l.dropWhile p).dropWhile p = l.dropWhile p := by
  induction l with
  | nil => rfl
  | cons a t ih =>
    by_cases h : p a = true
    · simp [List.dropWhile_cons, h, ih]
    · simp [List.dropWhile_cons, h]

/-- The head surviving `dropWhile` does not satisfy the predicate. -/
theorem dropWhile_head_false (p : Char → Bool) (l : List Char) (c : Char) (t : List Char)
    (h : l.dropWhile p = c :: t) : p c = false := by
  induction l with
  | nil => simp [List.dropWhile] at h
  | cons a l ih =>
    by_cases hp : p a = true
    · rw [List.dropWhile_cons, if_pos hp] at h
      exact ih h
    · rw [List.dropWhile_cons, if_neg hp] at h
      cases h
      simpa using hp

/-- The list is a prefix-extension of its `dropWhile` image. -/
theorem dropWhile_suffix_ex (p : Char → Bool) (l : List Char) :
    ∃ t, l = t ++ l.dropWhile p := by
  induction l with
  | nil => exact ⟨[], rfl⟩
  | cons a l ih =>
    by_cases hp : p a = true
    · obtain ⟨t, ht⟩ := ih
      refine ⟨a :: t, ?_⟩
      rw [List.dropWhile_cons, if_pos hp, List.cons_append, ← ht]
    · exact ⟨[], by rw [List.dropWhile_cons, if_neg hp]; rfl⟩

/-- The `rstrip` image is an initial segment of the list. -/
theorem rstrip_prefix_ex (p : Char → Bool) (l : List Char) :
    ∃ r, l = rstrip p l ++ r := by
  obtain ⟨t, ht⟩ := dropWhile_suffix_ex p l.reverse
  refine ⟨t.reverse, ?_⟩
  have : l.reverse.reverse = (t ++ l.reverse.dropWhile p).reverse := by rw [← ht]
  rw [List.reverse_reverse, List.reverse_append] at this
  exact this

/-- Stripping the tail twice is the same as stripping it once. -/
theorem rstrip_self (p : Char → Bool) (l : List Char) :
    rstrip p (rstrip p l) = rstrip p l := by
  unfold rstrip
  rw [List.reverse_reverse, dropWhile_self]

/-- Trimming is idempotent. -/
theorem jsTrimL_self (l : List Char) : jsTrimL (jsTrimL l) = jsTrimL l := by
  unfold jsTrimL
  have hdrop : (rstrip isJsSpace (l.dropWhile isJsSpace)).dropWhile isJsSpace
      = rstrip isJsSpace (l.dropWhile isJsSpace) := by
    cases hm : rstrip isJsSpace (l.dropWhile isJsSpace) with
    | nil => rfl
    | cons c t =>
      obtain ⟨r, hr⟩ := rstrip_prefix_ex isJsSpace (l.dropWhile isJsSpace)
      rw [hm] at hr
      have hr2 : l.dropWhile isJsSpace = c :: (t ++ r) := by rw [hr, List.cons_append]
      have hc : isJsSpace c = false := dropWhile_head_false isJsSpace l c (t ++ r) hr2
      rw [List.dropWhile_cons, if_neg (by simp [hc])]
  rw [hdrop, rstrip_self]

/-- C2: a blank (empty or whitespace-only) search sentence short-circuits:
the full unfiltered record set is displayed, no feedback is reported, no
translation request is issued, and the local analyzer also returns the
unfiltered set with no detected filters. -/
theorem search_empty_query (st : AppState) (raw : String) (silent : Bool)
    (fetch : FetchOutcome) (h : jsTrim raw = "") :
    (performNaturalSearch st raw silent fetch).displayed = st.games ∧
    (performNaturalSearch st raw silent fetch).feedback = none ∧
    (performNaturalSearch st raw silent fetch).request = none ∧
    analyzeQuery raw st.games = { extracts := [], filtered := st.games } := by
  have h0 : jsTrimL raw.toList = [] := by
    have hd := congrArg String.data h
    simpa [jsTrim] using hd
  have h0' : toLowerL (jsTrimL raw.toList) = [] := by rw [h0]; rfl
  refine ⟨?_, ?_, ?_, ?_⟩
  · simp [performNaturalSearch, h]
  · simp [performNaturalSearch, h]
  · simp [performNaturalSearch, h]
  · simp only [analyzeQuery]
    rw [h0']
    simp

/-- Witness for C2 at a whitespace-only sentence and a concrete state. -/
theorem search_empty_query_witness :
    (performNaturalSearch cexState "   " false FetchOutcome.networkFailure).displayed
      = cexState.games ∧
    (performNaturalSearch cexState "   " false FetchOutcome.networkFailure).feedback = none ∧
    (performNaturalSearch cexState "   " false FetchOutcome.networkFailure).request = none ∧
    analyzeQuery "   " cexState.games = { extracts := [], filtered := cexState.games } :=
  search_empty_query cexState "   " false FetchOutcome.networkFailure (by decide)

/-- C3: a network-level failure reaching the record store is always
classified as the store-unreachable feedback category (never the
try-another-question one), whatever status attribute the error carries, and
a failing non-blank search whose fetch dies on the network reports exactly
that category. -/
theorem network_error_priority (st : AppState) (raw : String) (status : Option Nat)
    (h : jsTrim raw ≠ "") :
    classifySearchError { code := ErrCode.network, status := status }
      = FeedbackType.databaseError ∧
    classifySearchError { code := ErrCode.network, status := status }
      ≠ FeedbackType.queryError ∧
    (performNaturalSearch st raw false FetchOutcome.networkFailure).feedback
      = some FeedbackType.databaseError := by
  refine ⟨rfl, by simp [classifySearchError], ?_⟩
  simp [performNaturalSearch, h, callApi, classifySearchError]

/-- Witness for C3: even with a 400 status attribute attached, a network
error is classified store-unreachable. -/
theorem network_error_priority_witness :
    classifySearchError { code := ErrCode.network, status := some 400 }
      = FeedbackType.databaseError ∧
    classifySearchError { code := ErrCode.network, status := some 400 }
      ≠ FeedbackType.queryError ∧
    (performNaturalSearch cexState "panne" false FetchOutcome.networkFailure).feedback
      = some FeedbackType.databaseError :=
  network_error_priority cexState "panne" (some 400) (by decide)

/-- C1 (amended): when the search pipeline fails, the displayed list is the
remembered result set exactly when that set is non-empty and was produced by
this very query, and in every other case (a remembered set for a different
query, an empty remembered set, or none at all) it is the full unfiltered
record set.  In particular the display is never emptied by a search-path
failure: it can only be empty when the record set itself is. -/
theorem search_failure_fallback (st : AppState) (raw : String) (silent : Bool)
    (fetch : FetchOutcome) (e : ApiError) (h : callApi fetch = .error e) :
    ((st.lastSearch.results ≠ [] ∧ st.lastSearch.query ≠ ""
        ∧ st.lastSearch.query = jsTrim raw) →
      (performNaturalSearch st raw silent fetch).displayed = st.lastSearch.results) ∧
    (¬ (st.lastSearch.results ≠ [] ∧ st.lastSearch.query ≠ ""
        ∧ st.lastSearch.query = jsTrim raw) →
      (performNaturalSearch st raw silent fetch).displayed = st.games) ∧
    (st.games ≠ [] → (performNaturalSearch st raw silent fetch).displayed ≠ []) := by
  by_cases hq : jsTrim raw = ""
  · have hd : (performNaturalSearch st raw silent fetch).displayed = st.games := by
      simp [performNaturalSearch, hq]
    refine ⟨?_, fun _ => hd, fun hg => by rw [hd]; exact hg⟩
    rintro ⟨_, hne, heq⟩
    exact absurd (heq.trans hq) hne
  · by_cases hc : st.lastSearch.results ≠ [] ∧ st.lastSearch.query ≠ ""
        ∧ st.lastSearch.query = jsTrim raw
    · have hd : (performNaturalSearch st raw silent fetch).displayed
          = st.lastSearch.results := by
        simp [performNaturalSearch, hq, h, hc]
      exact ⟨fun _ => hd, fun hnc => absurd hc hnc, fun _ => by rw [hd]; exact hc.1⟩
    · have hd : (performNaturalSearch st raw silent fetch).displayed = st.games := by
        simp [performNaturalSearch, hq, h, hc]
      exact ⟨fun hcc => absurd hcc hc, fun _ => hd, fun hg => by rw [hd]; exact hg⟩

/-- Witness for C1 (amended): with the remembered non-empty set for query
"x", a failing retry of "x" redisplays that very set, while a failing search
for the different query "y" shows the full record set, which is non-empty. -/
theorem search_failure_fallback_witness :
    (performNaturalSearch cexState "x" false FetchOutcome.networkFailure).displayed
      = cexState.lastSearch.results ∧
    (performNaturalSearch cexState "y" false FetchOutcome.networkFailure).displayed
      = cexState.games ∧
    (performNaturalSearch cexState "y" false FetchOutcome.networkFailure).displayed ≠ [] :=
  ⟨(search_failure_fallback cexState "x" false FetchOutcome.networkFailure
      { code := ErrCode.network, status := none } rfl).1 (by decide),
   (search_failure_fallback cexState "y" false FetchOutcome.networkFailure
      { code := ErrCode.network, status := none } rfl).2.1 (by decide),
   (search_failure_fallback cexState "y" false FetchOutcome.networkFailure
      { code := ErrCode.network, status := none } rfl).2.2 (by decide)⟩

/-- Counterexample to C1 as stated: the store holds [Azul], the most recent
known-good result set is the non-empty [Dixit] (for the earlier query "x"),
yet when the new query "y" fails the display falls back to the full record
set [Azul], not to the known-good set. -/
theorem search_failure_fallback_cex :
    (performNaturalSearch cexState "y" false FetchOutcome.networkFailure).displayed
      = [mkSimpleGame "Azul" none none] ∧
    cexState.lastSearch.results = [mkSimpleGame "Dixit" none none] ∧
    [mkSimpleGame "Azul" none none] ≠ [mkSimpleGame "Dixit" none none] := by
  refine ⟨by decide, rfl, by decide⟩

/-- C8: the natural-language search path is read-only: whatever the query,
the starting state and the fetch outcome, the stored record set is unchanged
and the only request it can issue is a GET. -/
theorem search_read_only (st : AppState) (raw : String) (silent : Bool)
    (fetch : FetchOutcome) :
    (performNaturalSearch st raw silent fetch).newState.games = st.games ∧
    Option.all (fun q => decide (q.method = Method.GET))
      (performNaturalSearch st raw silent fetch).request = true := by
  by_cases hq : jsTrim raw = ""
  · simp [performNaturalSearch, hq, Option.all]
  · cases hcall : callApi fetch with
    | ok rows => simp [performNaturalSearch, hq, hcall, Option.all]
    | error e => simp [performNaturalSearch, hq, hcall, Option.all]

/-- C5 (amended): the mapper passes every present stored numeric bound
through unchanged, but when a bound is absent it derives it at map time from
the digit range of the corresponding free-text label (play_time for
durations, player_count for players); the raw labels themselves are passed
through unchanged. -/
theorem mapApiGame_passthrough (g : ApiGame) :
    (∀ n : Int, g.min_duration_minutes = some n → (mapApiGame g).minDuree = some n) ∧
    (g.min_duration_minutes = none →
      (mapApiGame g).minDuree = (parseNumericRange g.play_time).map NumRange.min) ∧
    (∀ n : Int, g.max_duration_minutes = some n → (mapApiGame g).maxDuree = some n) ∧
    (g.max_duration_minutes = none →
      (mapApiGame g).maxDuree = (parseNumericRange g.play_time).map NumRange.max) ∧
    (∀ n : Int, g.min_players = some n → (mapApiGame g).minJoueurs = some n) ∧
    (g.min_players = none →
      (mapApiGame g).minJoueurs = (parseNumericRange g.player_count).map NumRange.min) ∧
    (∀ n : Int, g.max_players = some n → (mapApiGame g).maxJoueurs = some n) ∧
    (g.max_players = none →
      (mapApiGame g).maxJoueurs = (parseNumericRange g.player_count).map NumRange.max) ∧
    (mapApiGame g).playTime = g.play_time ∧
    (mapApiGame g).playerCount = g.player_count := by
  refine ⟨?_, ?_, ?_, ?_, ?_, ?_, ?_, ?_, rfl, rfl⟩
  · intro n h; simp [mapApiGame, toOptionalNumber, jsCoalesce, h]
  · intro h; simp [mapApiGame, toOptionalNumber, jsCoalesce, h]
  · intro n h; simp [mapApiGame, toOptionalNumber, jsCoalesce, h]
  · intro h; simp [mapApiGame, toOptionalNumber, jsCoalesce, h]
  · intro n h; simp [mapApiGame, toOptionalNumber, jsCoalesce, h]
  · intro h; simp [mapApiGame, toOptionalNumber, jsCoalesce, h]
  · intro n h; simp [mapApiGame, toOptionalNumber, jsCoalesce, h]
  · intro h; simp [mapApiGame, toOptionalNumber, jsCoalesce, h]

/-- Witness for C5 (amended): a present bound passes through, an absent one
is label-derived. -/
theorem mapApiGame_passthrough_witness :
    (mapApiGame sampleRowA).minDuree = some 25 ∧
    (mapApiGame sampleRowB).minDuree = (parseNumericRange sampleRowB.play_time).map NumRange.min :=
  ⟨(mapApiGame_passthrough sampleRowA).1 25 rfl,
   (mapApiGame_passthrough sampleRowB).2.1 rfl⟩

/-- Counterexample to C5 as stated: in the row of the repository test the
stored numeric bound min_duration_minutes is absent, yet the mapped record
carries minDuree = 10, synthesized by the mapper itself from the play_time
label "10 - 20 min" (not at display time). -/
theorem mapApiGame_derives_cex :
    sampleRowB.min_duration_minutes = none ∧ (mapApiGame sampleRowB).minDuree = some 10 :=
  ⟨rfl, by decide⟩

/-- C6 (amended): on the sentence "jeux pour 2 joueurs ou plus" the local
analyzer fires exactly the player-count filter with target 2: it keeps the
records that can accommodate 2 players (2 between the bounds when both are
present, 2 ≥ min when only the minimum is present, 2 ≤ max when only the
maximum is, else the digit range of the player-count label must contain 2). -/
theorem analyzeQuery_two_players (games : List Game) :
    analyzeQuery "jeux pour 2 joueurs ou plus" games =
      { extracts := ["2 joueurs"], filtered := games.filter (playerFilter 2) } := rfl

/-- Counterexample to C6 as stated: a record with minPlayers = 3 satisfies
minPlayers >= 2 (so the claim says it is returned), yet the search filters
it out, because the implemented predicate asks whether 2 players fit in
[min, max], not whether minPlayers >= 2. -/
theorem analyzeQuery_two_players_cex :
    List.filter
        (fun g => match g.minJoueurs with
          | some m => decide ((2 : Int) ≤ m)
          | none => false)
        [mkSimpleGame "Pandemic" (some 3) (some 5)]
      = [mkSimpleGame "Pandemic" (some 3) (some 5)] ∧
    (analyzeQuery "jeux pour 2 joueurs ou plus"
        [mkSimpleGame "Pandemic" (some 3) (some 5)]).filtered = [] := by
  constructor <;> decide

/-- C7 (amended): every tag yielded by parsing a stored specialSupport value
is trimmed and non-empty (the parse splits on commas, trims each entry and
drops the empties; duplicates are kept, so the result is a list rather than
a set). -/
theorem parseTags_trimmed_nonempty (v : Option String) (t : String)
    (h : t ∈ parseTags v) : jsTrim t = t ∧ t ≠ "" := by
  cases v with
  | none => simp [parseTags] at h
  | some s =>
    by_cases hs : s = ""
    · simp [parseTags, hs] at h
    · rw [parseTags, if_neg hs, List.mem_map] at h
      obtain ⟨l, hl, rfl⟩ := h
      rw [List.mem_filter] at hl
      obtain ⟨hl1, hl2⟩ := hl
      rw [List.mem_map] at hl1
      obtain ⟨y, _, rfl⟩ := hl1
      constructor
      · show jsTrim (String.mk (jsTrimL y)) = String.mk (jsTrimL y)
        unfold jsTrim
        have hdata : (String.mk (jsTrimL y)).toList = jsTrimL y := rfl
        rw [hdata, jsTrimL_self]
      · intro hcontra
        have hnil : jsTrimL y = [] := congrArg String.data hcontra
        rw [hnil] at hl2
        simp at hl2

/-- Witness for C7 (amended) on a concrete stored tag list. -/
theorem parseTags_trimmed_nonempty_witness :
    jsTrim "Dés" = "Dés" ∧ "Dés" ≠ "" :=
  parseTags_trimmed_nonempty (some "Cartes,  Dés , ,") "Dés" (by decide)

/-- Counterexample to C7 as stated: parsing keeps duplicates, so the result
is not a set. -/
theorem parseTags_dup_cex : ¬ (parseTags (some "a, a")).Nodup := by decide

/-- C4: the spec-modelled validator rejects (with the disallowed-keyword
reason) every candidate containing a denied keyword as a whole token,
whatever its case and surrounding whitespace, and any candidate it accepts
is a single read-only selection statement. -/
theorem validate_rejects_disallowed (candidate : String) :
    ((∃ kw, kw ∈ DISALLOWED_SQL_KEYWORDS ∧ kw ∈ sqlUpperTokens candidate) →
      validate candidate = ValidationOutcome.rejected RejectReason.disallowedKeyword) ∧
    (∀ q, validate candidate = ValidationOutcome.accepted q →
      isSingleReadOnlySelect candidate = true) := by
  constructor
  · rintro ⟨kw, hkw, htk⟩
    have hany : (sqlUpperTokens candidate).any
        (fun t => decide (t ∈ DISALLOWED_SQL_KEYWORDS)) = true := by
      rw [List.any_eq_true]
      exact ⟨kw, htk, by simpa using hkw⟩
    simp [validate, hany]
  · intro q h
    by_cases h1 : (sqlUpperTokens candidate).any
        (fun t => decide (t ∈ DISALLOWED_SQL_KEYWORDS)) = true
    · simp [validate, h1] at h
    · by_cases h2 : hasSemiOutside false (stripCandidate candidate) = true
      · simp [validate, h1, h2] at h
      · by_cases h3 : (sqlUpperTokens candidate).head? = some ("SELECT".toList)
        · unfold isSingleReadOnlySelect
          rw [Bool.and_eq_true, Bool.and_eq_true]
          refine ⟨⟨decide_eq_true h3, ?_⟩, ?_⟩
          · rw [Bool.not_eq_true] at h2
            rw [h2]
            rfl
          · rw [List.all_eq_true]
            intro t ht
            have hnot : ¬ (decide (t ∈ DISALLOWED_SQL_KEYWORDS) = true) := by
              intro hd
              exact h1 (List.any_eq_true.mpr ⟨t, ht, hd⟩)
            cases hdec : decide (t ∈ DISALLOWED_SQL_KEYWORDS) with
            | false => rfl
            | true => exact absurd hdec hnot
        · have h3' : ¬ (sqlUpperTokens candidate).head?
              = some ['S', 'E', 'L', 'E', 'C', 'T'] := h3
          simp [validate, h1, h2, h3'] at h

/-- Witness for C4: a lower-case DROP statement with extra whitespace is
rejected with the disallowed-keyword reason, and a plain selection is
accepted and certified read-only. -/
theorem validate_rejects_disallowed_witness :
    validate "  drop TABLE jeux;  " = ValidationOutcome.rejected RejectReason.disallowedKeyword ∧
    isSingleReadOnlySelect "SELECT * FROM jeux" = true :=
  ⟨(validate_rejects_disallowed "  drop TABLE jeux;  ").1
      ⟨"DROP".toList, by decide, by decide⟩,
   (validate_rejects_disallowed "SELECT * FROM jeux").2 "SELECT * FROM jeux" (by decide)⟩

/-- C9: saving while a record is being edited issues an update addressed by
the original name captured when editing began (even though the form may now
carry a different name), and saving with no record under edit issues a
create request instead. -/
theorem handleSave_addressing (g : Game) (data : FormData) (h : data.nom ≠ "") :
    handleSave (some (captureEditingName g)) data =
      some { method := Method.PUT,
             path := "/games/" ++ encodeURIComponent (captureEditingName g),
             body := buildPayloadFromForm data } ∧
    handleSave none data =
      some { method := Method.POST, path := "/games", body := buildPayloadFromForm data } := by
  constructor <;> simp [handleSave, h]

/-- Witness for C9: the stored name is "Ancien", the form was renamed to
"Nouveau", yet the update request is addressed to /games/Ancien. -/
theorem handleSave_addressing_witness :
    handleSave (some (captureEditingName editedGame)) renamedForm =
      some { method := Method.PUT, path := "/games/Ancien",
             body := buildPayloadFromForm renamedForm } ∧
    handleSave none renamedForm =
      some { method := Method.POST, path := "/games", body := buildPayloadFromForm renamedForm } :=
  ⟨((handleSave_addressing editedGame renamedForm (by decide)).1).trans (by decide),
   (handleSave_addressing editedGame renamedForm (by decide)).2⟩

set_option maxRecDepth 8000

/-- C10: for every sort key (unknown keys fall through to the name template)
and every direction string, the generated sort query is one of ten fixed
strings, its direction collapses to the normalized ASC or DESC variant, and
it is structurally safe: a single SELECT over the fixed table jeux with no
statement separator and no data- or schema-modifying keyword, so no
caller-supplied text reaches the query. -/
theorem buildSearchSql_safe (sortKey : String) (direction : String) :
    buildSearchSql sortKey direction ∈ sortSqlAllowed ∧
    (buildSearchSql sortKey direction = buildSearchSql sortKey "asc" ∨
      buildSearchSql sortKey direction = buildSearchSql sortKey "desc") ∧
    sortSqlSafe (buildSearchSql sortKey direction) = true := by
  by_cases h1 : sortKey = "players"
  · subst h1
    by_cases hdir : direction = "desc" <;> simp [buildSearchSql, hdir] <;> decide
  · by_cases h2 : sortKey = "duration"
    · subst h2
      by_cases hdir : direction = "desc" <;> simp [buildSearchSql, hdir] <;> decide
    · by_cases h3 : sortKey = "type"
      · subst h3
        by_cases hdir : direction = "desc" <;> simp [buildSearchSql, hdir] <;> decide
      · by_cases h4 : sortKey = "complexite"
        · subst h4
          by_cases hdir : direction = "desc" <;> simp [buildSearchSql, hdir] <;> decide
        · by_cases hdir : direction = "desc" <;>
            simp [buildSearchSql, h1, h2, h3, h4, hdir] <;> decide
